import Mathlib

/-!
Verification of the realtime chat reconciliation and composer logic of the
slack-clone front end.  All definitions are shallow embeddings of the
TypeScript source in `src/` (the full `ChatArea` component with attachments
and typing indicators, plus the room-id computation shared by both
`ChatArea` variants).  Machine timestamps (JavaScript millisecond epochs)
are modelled as `Nat`; JavaScript string-falsiness (`undefined` or `""`)
is modelled with `Option String` plus an explicit empty-string test.
-/

namespace ChatSpec

/-- Embeds the `FileAttachment` interface: `{ name, url, type, size }`. -/
structure FileAttachment where
  name : String
  url : String
  type : String
  size : Nat
deriving DecidableEq, Repr

/-- Embeds the `user` field of the `Message` interface: `{ name, avatar? }`,
with the avatar normalised to `""` exactly as every construction site does
(`... || ''`). -/
structure ChatUser where
  name : String
  avatar : String
deriving DecidableEq, Repr

/-- Embeds the `Message` interface of `ChatArea`: id, content, author,
timestamp (epoch milliseconds), own-message flag and attachments.  The
optional `isOwn?`/`attachments?` fields are normalised to `false`/`[]`,
matching how the rendering code treats `undefined`. -/
structure Message where
  id : String
  content : String
  user : ChatUser
  timestamp : Nat
  isOwn : Bool
  attachments : List FileAttachment
deriving DecidableEq, Repr

/-- JavaScript truthiness filter for an optional string: `undefined` and
`""` are falsy, so `a || b` keeps `a` only when it is present and
non-empty. -/
def jsStrOpt : Option String → Option String
  | none => none
  | some s => if s = "" then none else some s

/-- Embeds JavaScript `String.prototype.trim()`: strips leading and trailing
whitespace.  Implemented on the character list so that it evaluates by
kernel reduction. -/
def jsTrim (s : String) : String :=
  String.mk (((s.data.dropWhile Char.isWhitespace).reverse.dropWhile Char.isWhitespace).reverse)

/-- Embeds `[x, y].sort()` on a two-element JavaScript array: the default
comparator orders strings lexicographically, so the result is the sorted
pair. -/
def jsSortPair (a b : String) : List String :=
  if a ≤ b then [a, b] else [b, a]

/-- Embeds the direct-message branch of the room-id computation in
`setupRealtime`:
`` `dm-${[user.id, dmId].sort().join('-')}` ``. -/
def dmRoomId (uid peer : String) : String :=
  "dm-" ++ String.intercalate "-" (jsSortPair uid peer)

/-- Embeds the full room-id computation of `setupRealtime` together with the
effect guard `if (!user?.id || (!channelId && !dmId)) return`: a non-empty
`channelId` wins, otherwise a non-empty `dmId` selects the direct-message
path, otherwise no subscription is attempted. -/
def computeRoomId (uid channelId dmId : String) : Option String :=
  if uid = "" then none
  else if channelId ≠ "" then some ("channel-" ++ channelId)
  else if dmId ≠ "" then some (dmRoomId uid dmId)
  else none

/-- Embeds the shape of a realtime event as consumed by `onMessage` and
`getMessages`: id, payload (`data.content`, `data.attachments`), sender id,
sender metadata and timestamp.  `metadata?.displayName` and
`metadata?.avatar` are optional strings. -/
structure RtEvent where
  id : String
  content : String
  attachments : List FileAttachment
  userId : String
  displayName : Option String
  avatar : Option String
  timestamp : Nat
deriving DecidableEq, Repr

/-- Embeds the mapping of a realtime event to a `Message` (shared verbatim
by the live `onMessage` handler and the backlog `getMessages` mapper):
`displayName || 'Anonymous'`, `avatar || ''`, `isOwn: userId === user.id`. -/
def formatRtEvent (uid : String) (e : RtEvent) : Message :=
  { id := e.id
    content := e.content
    user := { name := (jsStrOpt e.displayName).getD "Anonymous"
              avatar := (jsStrOpt e.avatar).getD "" }
    timestamp := e.timestamp
    isOwn := e.userId == uid
    attachments := e.attachments }

/-- Embeds the live chat-event intake of the `onMessage` handler:
`setMessages(prev => prev.some(msg => msg.id === newMessage.id) ? prev
: [...prev, newMessage])`. -/
def applyChatEvent (uid : String) (prev : List Message) (e : RtEvent) : List Message :=
  let newMessage := formatRtEvent uid e
  if prev.any (fun msg => msg.id == newMessage.id) then prev
  else prev ++ [newMessage]

/-- Embeds the synthetic welcome message installed by the backlog-failure
branch: id `welcome-1`, System author, timestamp one hour before `now`. -/
def welcomeMessage (now : Nat) : Message :=
  { id := "welcome-1"
    content := "Welcome to the team workspace! 👋"
    user := { name := "System", avatar := "" }
    timestamp := now - 3600000
    isOwn := false
    attachments := [] }

/-- Embeds the backlog load of `setupRealtime`: on success the fetched
events are mapped to `Message`s and installed as the transcript; on failure
(the `catch` branch) the transcript is set to the single welcome message.
The failure is absorbed here — the function returns a transcript, never an
error. -/
def loadBacklog (uid : String) (now : Nat) : Except String (List RtEvent) → List Message
  | Except.ok evs => evs.map (formatRtEvent uid)
  | Except.error _ => [welcomeMessage now]

/-- The transcript-view state relevant to room switching: the currently
active room (derived from the `channelId`/`dmId` props; `none` when neither
is selected) and the held transcript. -/
structure ViewState where
  activeRoom : Option String
  messages : List Message
deriving DecidableEq, Repr

/-- Embeds the room-switch effect `useEffect(() => { setMessages([]) },
[channelId, dmId])` together with the prop change itself: selecting a room
makes it active and clears the transcript (a fresh backlog fetch, tagged
below with the room it was issued for, is started by `setupRealtime`). -/
def switchRoom (_st : ViewState) (newRoom : String) : ViewState :=
  { activeRoom := some newRoom, messages := [] }

/-- Embeds the backlog-arrival callback of `setupRealtime`:
`setMessages(formattedMessages)`.  `fetchRoom`, the room the fetch was
issued for, is recorded as a parameter purely so the isolation property can
be stated; the handler in the source never consults it — the fetched result
is installed as the transcript unconditionally. -/
def backlogArrives (st : ViewState) (_fetchRoom : String) (result : List Message) : ViewState :=
  { st with messages := result }

/-- Claim C3 as stated: a backlog result arriving for a room that is no
longer the active room leaves the state unchanged (is discarded). -/
def roomSwitchIsolationClaim : Prop :=
  ∀ (st : ViewState) (fetchRoom : String) (result : List Message),
    st.activeRoom ≠ some fetchRoom → backlogArrives st fetchRoom result = st

/-- A concrete message used by the concrete counterexamples. -/
def demoMsg : Message :=
  { id := "r1-msg", content := "from room one", user := { name := "Bob", avatar := "" },
    timestamp := 7, isOwn := false, attachments := [] }

/-- Embeds the typing-branch of the `onMessage` handler: events from the
current user are ignored; a `typing:start` (`isTyping = true`) from another
participant appends the sender's display name if absent and arms the 3000 ms
auto-expiry timer (the returned flag); a `typing:stop` filters the name out
immediately and arms nothing. -/
def handleTypingEvent (currentUid : String) (typingUsers : List String)
    (senderUid : String) (isTyping : Bool) (userName : String) :
    List String × Bool :=
  if senderUid = currentUid then (typingUsers, false)
  else if isTyping then
    ((if userName ∈ typingUsers then typingUsers else typingUsers ++ [userName]), true)
  else (typingUsers.filter (fun n => n != userName), false)

/-- Embeds the body of the 3000 ms auto-expiry timeout:
`setTypingUsers(prev => prev.filter(name => name !== userName))`. -/
def expireTyping (typingUsers : List String) (userName : String) : List String :=
  typingUsers.filter (fun n => n != userName)

/-- Embeds the upload loop of `handleFileUpload`: each file's upload either
yields a `FileAttachment` or throws; the loop stops at the first failure. -/
def runUploads : List (Except String FileAttachment) → Except String (List FileAttachment)
  | [] => Except.ok []
  | Except.error e :: _ => Except.error e
  | Except.ok a :: rest =>
    match runUploads rest with
    | Except.ok l => Except.ok (a :: l)
    | Except.error e => Except.error e

/-- Embeds `handleFileUpload` over the batch outcomes: on success the
completed attachments are appended to the stage in one update
(`setAttachments(prev => [...prev, ...newAttachments])`); on any failure the
`catch` branch only logs, leaving the stage untouched; the `finally` branch
clears the uploading flag either way (second component). -/
def handleFileUpload (stage : List FileAttachment)
    (results : List (Except String FileAttachment)) :
    List FileAttachment × Bool :=
  match runUploads results with
  | Except.ok newAttachments => (stage ++ newAttachments, false)
  | Except.error _ => (stage, false)

/-- Embeds the session user delivered by `onAuthStateChanged`:
`{ id, displayName?, email?, avatar? }`. -/
structure SessionUser where
  id : String
  displayName : Option String
  email : Option String
  avatar : Option String
deriving DecidableEq, Repr

/-- A concrete session user used by the concrete witnesses. -/
def demoUser : SessionUser :=
  { id := "u1", displayName := some "Alice", email := none, avatar := none }

/-- Embeds `email?.split('@')[0]`: the part of the address before the first
`@` (the whole string when there is no `@`). -/
def emailLocalPart (email : String) : String :=
  (email.splitOn "@").headD ""

/-- Embeds the author name of the locally synthesized fallback message:
`user.displayName || user.email?.split('@')[0] || 'You'` under JavaScript
falsiness. -/
def fallbackUserName (u : SessionUser) : String :=
  (jsStrOpt u.displayName).getD
    ((jsStrOpt (u.email.map emailLocalPart)).getD "You")

/-- Embeds the `fallbackMessage` synthesized by the publish-failure branch of
`handleSendMessage`: id `Date.now().toString()`, the composer content, the
current wall-clock timestamp, own-authored, carrying the staged
attachments. -/
def fallbackMessage (u : SessionUser) (now : Nat) (text : String)
    (stage : List FileAttachment) : Message :=
  { id := toString now
    content := text
    user := { name := fallbackUserName u, avatar := (jsStrOpt u.avatar).getD "" }
    timestamp := now
    isOwn := true
    attachments := stage }

/-- The composer-relevant state after a send attempt: transcript, text
input, attachment stage, and how many times the chat publish was invoked. -/
structure SendOutcome where
  messages : List Message
  text : String
  stage : List FileAttachment
  publishCount : Nat
deriving DecidableEq, Repr

/-- Embeds `handleSendMessage`: the guard
`if ((!message.trim() && attachments.length === 0) || !user?.id ||
!channelRef.current) return` aborts without publishing; otherwise the chat
event is published exactly once (`publishOk` is the outcome of that single
call).  On success the input and stage are cleared; on failure the `catch`
branch appends the locally synthesized fallback message and clears input and
stage — no second publish is attempted. -/
def handleSendMessage (user : Option SessionUser) (hasChannel publishOk : Bool)
    (now : Nat) (messages : List Message) (text : String)
    (stage : List FileAttachment) : SendOutcome :=
  match user with
  | none => { messages := messages, text := text, stage := stage, publishCount := 0 }
  | some u =>
    if (jsTrim text = "" ∧ stage = []) ∨ u.id = "" ∨ hasChannel = false then
      { messages := messages, text := text, stage := stage, publishCount := 0 }
    else if publishOk then
      { messages := messages, text := "", stage := [], publishCount := 1 }
    else
      { messages := messages ++ [fallbackMessage u now text stage],
        text := "", stage := [], publishCount := 1 }

/-- A local calendar date in the viewer's zone (year, month 1-12, day).
Both `toDateString()` and `toLocaleDateString('en-US', { month: 'long',
day: 'numeric' })` depend only on this local calendar date, so message
timestamps are represented by it for the grouping logic. -/
structure CalDate where
  year : Nat
  month : Nat
  day : Nat
deriving DecidableEq, Repr

/-- Gregorian leap-year rule, as implemented by the JavaScript `Date`
rollover used in `formatDate`. -/
def isLeap (y : Nat) : Bool :=
  (y % 4 == 0 && y % 100 != 0) || y % 400 == 0

/-- Days in a month of the Gregorian calendar. -/
def daysInMonth (y m : Nat) : Nat :=
  if m = 2 then (if isLeap y then 29 else 28)
  else if m = 4 ∨ m = 6 ∨ m = 9 ∨ m = 11 then 30
  else 31

/-- Embeds `yesterday.setDate(today.getDate() - 1)`: the previous calendar
day, with JavaScript's month and year rollover. -/
def prevDay (d : CalDate) : CalDate :=
  if 1 < d.day then { d with day := d.day - 1 }
  else if 1 < d.month then
    { year := d.year, month := d.month - 1, day := daysInMonth d.year (d.month - 1) }
  else { year := d.year - 1, month := 12, day := 31 }

/-- English month names as produced by
`toLocaleDateString('en-US', { month: 'long' })`. -/
def monthName (m : Nat) : String :=
  match m with
  | 1 => "January"
  | 2 => "February"
  | 3 => "March"
  | 4 => "April"
  | 5 => "May"
  | 6 => "June"
  | 7 => "July"
  | 8 => "August"
  | 9 => "September"
  | 10 => "October"
  | 11 => "November"
  | 12 => "December"
  | _ => ""

/-- Embeds `formatDate`: `Today` for the current date, `Yesterday` for the
previous date, otherwise the en-US long month name and day number — note
the year is not part of the label. -/
def formatDate (today d : CalDate) : String :=
  if d = today then "Today"
  else if d = prevDay today then "Yesterday"
  else monthName d.month ++ " " ++ toString d.day

/-- Inner loop of the separator computation: for each message after the
first, `showDate` is `formatDate(msg.timestamp) !==
formatDate(messages[index - 1].timestamp)`. -/
def showDateGo (today prev : CalDate) : List CalDate → List Bool
  | [] => []
  | d :: rest => decide (formatDate today d ≠ formatDate today prev) :: showDateGo today d rest

/-- Embeds the date-separator computation of the message list render:
`showDate = index === 0 || formatDate(msg.timestamp) !==
formatDate(messages[index - 1].timestamp)`, returning one flag per
message. -/
def showDateFlags (today : CalDate) : List CalDate → List Bool
  | [] => []
  | d :: rest => true :: showDateGo today d rest

/-- Modelled from the spec's words, for comparison only: a separator
precedes a message exactly when its calendar date differs from the
immediately preceding message's calendar date, and the first message always
gets one. -/
def specDateGo (prev : CalDate) : List CalDate → List Bool
  | [] => []
  | d :: rest => decide (d ≠ prev) :: specDateGo d rest

/-- Modelled from the spec's words, for comparison only: the full
separator-flag list demanded by the claim (first message flagged, later
messages flagged exactly when the calendar date changes). -/
def specDateFlags : List CalDate → List Bool
  | [] => []
  | d :: rest => true :: specDateGo d rest

/-- The two typing signals a sender can publish. -/
inductive Sig where
  | start
  | stop
deriving DecidableEq, Repr

/-- Embeds the sender-side typing debouncer of `handleMessageChange`
together with its 1000 ms stop timer, run over a list of keystrokes
`(time, input value)` in time order.  The first argument is the armed stop
timer's deadline (`typingTimeoutRef`).  A keystroke finding no armed timer
publishes `typing:start` when the trimmed value is non-empty; in every case
the timer is (re)armed to fire 1000 ms later.  An armed timer whose
deadline has passed before the next keystroke fires first, publishing
`typing:stop` and disarming itself; after the last keystroke the remaining
timer fires. -/
def runTyping : Option Nat → List (Nat × String) → List (Nat × Sig)
  | none, [] => []
  | some d, [] => [(d, Sig.stop)]
  | none, (t, v) :: rest =>
    (if jsTrim v ≠ "" then [(t, Sig.start)] else []) ++ runTyping (some (t + 1000)) rest
  | some d, (t, v) :: rest =>
    if d ≤ t then
      (d, Sig.stop) ::
        ((if jsTrim v ≠ "" then [(t, Sig.start)] else []) ++ runTyping (some (t + 1000)) rest)
    else runTyping (some (t + 1000)) rest

/-- The time of the last keystroke of a burst (`t0` when there is none). -/
def lastKeyTime (t0 : Nat) : List (Nat × String) → Nat
  | [] => t0
  | (t, _) :: rest => lastKeyTime t rest

/-- `isBurstFrom t0 ks` holds when the keystrokes `ks` strictly follow `t0`
with every consecutive gap below 1000 ms. -/
def isBurstFrom (t0 : Nat) : List (Nat × String) → Bool
  | [] => true
  | (t, _) :: rest => (decide (t0 < t) && decide (t < t0 + 1000)) && isBurstFrom t rest

/-- Claim C7 as stated: every burst of one or more keystrokes separated by
less than 1000 ms, entered with no stop timer armed, publishes exactly one
`typing:start` at the first keystroke and exactly one `typing:stop` 1000 ms
after the last keystroke. -/
def typingDebounceClaim : Prop :=
  ∀ (t1 : Nat) (v1 : String) (rest : List (Nat × String)),
    isBurstFrom t1 rest = true →
    runTyping none ((t1, v1) :: rest)
      = [(t1, Sig.start), (lastKeyTime t1 rest + 1000, Sig.stop)]

end ChatSpec

namespace ChatSpec

/-- Claim C1: for every pair of distinct user ids `a` and `b`, the
direct-message path of the room resolver computes the identical room-id
string whether invoked with current user `a` and peer `b` or with current
user `b` and peer `a`, because the two ids are sorted before joining. -/
theorem C1_dm_room_id_symmetric (a b : String) (h : a ≠ b) :
    dmRoomId a b = dmRoomId b a := by
  unfold dmRoomId jsSortPair
  by_cases h1 : a ≤ b
  · by_cases h2 : b ≤ a
    · exact absurd (le_antisymm h1 h2) h
    · rw [if_pos h1, if_neg h2]
  · have h2 : b ≤ a := (le_total a b).resolve_left h1
    rw [if_neg h1, if_pos h2]

/-- Witness for C1 at the concrete pair `"alice"`, `"bob"`. -/
theorem C1_dm_room_id_symmetric_witness :
    dmRoomId "alice" "bob" = dmRoomId "bob" "alice" :=
  C1_dm_room_id_symmetric "alice" "bob" (by decide)

/-- Claim C2: the live chat intake is idempotent per message id — if a
message with the incoming event's id is already held, the transcript is left
unchanged; consequently delivering an event with the same id twice into a
transcript that does not yet contain that id leaves exactly one entry with
that id. -/
theorem C2_chat_intake_dedup (uid : String) (prev : List Message) (e : RtEvent) :
    (prev.any (fun msg => msg.id == e.id) = true → applyChatEvent uid prev e = prev) ∧
    (prev.countP (fun msg => msg.id == e.id) = 0 →
      (applyChatEvent uid (applyChatEvent uid prev e) e).countP
        (fun msg => msg.id == e.id) = 1) := by
  constructor
  · intro h
    unfold applyChatEvent
    simp only [formatRtEvent]
    rw [if_pos h]
  · intro h
    have hany : prev.any (fun msg => msg.id == e.id) = false := by
      rw [List.any_eq_false]
      intro msg hmsg
      by_contra hid
      have hpos : 0 < prev.countP (fun msg => msg.id == e.id) :=
        List.countP_pos_iff.mpr ⟨msg, hmsg, by simpa using hid⟩
      omega
    have hid : (formatRtEvent uid e).id = e.id := rfl
    have h1 : applyChatEvent uid prev e = prev ++ [formatRtEvent uid e] := by
      simp only [applyChatEvent, hid, hany]
      simp
    have h2 : applyChatEvent uid (prev ++ [formatRtEvent uid e]) e
        = prev ++ [formatRtEvent uid e] := by
      simp only [applyChatEvent, hid]
      rw [if_pos]
      simp [hid]
    rw [h1, h2, List.countP_append, h]
    simp [hid]

/-- Witness for C2: delivering the same concrete event twice into the empty
transcript yields exactly one entry with the event's id. -/
theorem C2_chat_intake_dedup_witness :
    (applyChatEvent "u1"
      (applyChatEvent "u1" []
        { id := "m1", content := "hi", attachments := [], userId := "u2",
          displayName := some "Bob", avatar := none, timestamp := 5 })
      { id := "m1", content := "hi", attachments := [], userId := "u2",
        displayName := some "Bob", avatar := none, timestamp := 5 }).countP
      (fun msg => msg.id == "m1") = 1 :=
  (C2_chat_intake_dedup "u1" []
    { id := "m1", content := "hi", attachments := [], userId := "u2",
      displayName := some "Bob", avatar := none, timestamp := 5 }).2 (by decide)

/-- Claim C6: when the backlog fetch fails, the reconciler sets the
transcript to exactly one synthetic system-authored welcome message — never
an empty transcript — and the failure is absorbed into an ordinary
transcript value rather than surfaced as an error. -/
theorem C6_backlog_failure_fallback (uid : String) (now : Nat) (err : String) :
    loadBacklog uid now (Except.error err) = [welcomeMessage now] ∧
    (loadBacklog uid now (Except.error err)).length = 1 ∧
    (welcomeMessage now).user.name = "System" ∧
    loadBacklog uid now (Except.error err) ≠ [] := by
  refine ⟨rfl, rfl, rfl, ?_⟩
  simp [loadBacklog]

/-- Claim C3 as stated is false: with room `channel-r2` active, a backlog
result issued for `channel-r1` is not discarded — it overwrites the
transcript with room one's messages. -/
theorem C3_room_switch_isolation_counterexample : ¬ roomSwitchIsolationClaim := by
  intro hclaim
  have h := hclaim { activeRoom := some "channel-r2", messages := [] }
    "channel-r1" [demoMsg] (by decide)
  exact absurd (congrArg ViewState.messages h) (by decide)

/-- Claim C3 amended: selecting room `r2` clears the transcript immediately
and makes `r2` active, but in-flight backlog results are not tagged or
discarded — a backlog result issued for `r1` that arrives after `r2` was
selected is installed verbatim as `r2`'s transcript. -/
theorem C3_room_switch_overwrite (st : ViewState) (r1 r2 : String)
    (result : List Message) :
    (switchRoom st r2).messages = [] ∧
    (switchRoom st r2).activeRoom = some r2 ∧
    backlogArrives (switchRoom st r2) r1 result =
      { activeRoom := some r2, messages := result } :=
  ⟨rfl, rfl, rfl⟩

/-- Claim C8: a `typing:start` from another participant adds the sender's
display name to the typing list when absent (and leaves the list unchanged
when present), arms the 3000 ms auto-expiry, and that expiry removes the
name from the visible set even if no `typing:stop` ever arrives; a
`typing:stop` removes the name immediately. -/
theorem C8_typing_auto_expiry (currentUid : String) (typingUsers : List String)
    (senderUid userName : String) (h : senderUid ≠ currentUid) :
    (handleTypingEvent currentUid typingUsers senderUid true userName).2 = true ∧
    (userName ∈ typingUsers →
      (handleTypingEvent currentUid typingUsers senderUid true userName).1 = typingUsers) ∧
    (userName ∉ typingUsers →
      (handleTypingEvent currentUid typingUsers senderUid true userName).1
        = typingUsers ++ [userName]) ∧
    userName ∈ (handleTypingEvent currentUid typingUsers senderUid true userName).1 ∧
    userName ∉ expireTyping
      (handleTypingEvent currentUid typingUsers senderUid true userName).1 userName ∧
    (handleTypingEvent currentUid typingUsers senderUid false userName).1
      = typingUsers.filter (fun n => n != userName) ∧
    userName ∉ (handleTypingEvent currentUid typingUsers senderUid false userName).1 := by
  simp only [handleTypingEvent, if_neg h, expireTyping]
  refine ⟨rfl, ?_, ?_, ?_, ?_, rfl, ?_⟩
  · intro hmem
    simp [hmem]
  · intro hmem
    simp [hmem]
  · by_cases hmem : userName ∈ typingUsers <;> simp [hmem]
  · simp
  · simp

/-- Witness for C8 at a concrete list and names. -/
theorem C8_typing_auto_expiry_witness :
    (handleTypingEvent "me" ["Carol"] "peer" true "Bob").2 = true ∧
    ("Bob" ∈ (["Carol"] : List String) →
      (handleTypingEvent "me" ["Carol"] "peer" true "Bob").1 = ["Carol"]) ∧
    ("Bob" ∉ (["Carol"] : List String) →
      (handleTypingEvent "me" ["Carol"] "peer" true "Bob").1 = ["Carol"] ++ ["Bob"]) ∧
    "Bob" ∈ (handleTypingEvent "me" ["Carol"] "peer" true "Bob").1 ∧
    "Bob" ∉ expireTyping (handleTypingEvent "me" ["Carol"] "peer" true "Bob").1 "Bob" ∧
    (handleTypingEvent "me" ["Carol"] "peer" false "Bob").1
      = (["Carol"] : List String).filter (fun n => n != "Bob") ∧
    "Bob" ∉ (handleTypingEvent "me" ["Carol"] "peer" false "Bob").1 :=
  C8_typing_auto_expiry "me" ["Carol"] "peer" "Bob" (by decide)

/-- Claim C10: a typing event whose sender is the current session user is
ignored entirely — the typing list is unchanged and no expiry is armed — so
the current user's own display name is never added to or removed from the
typing display list by their own typing events. -/
theorem C10_own_typing_ignored (currentUid : String) (typingUsers : List String)
    (isTyping : Bool) (userName : String) :
    handleTypingEvent currentUid typingUsers currentUid isTyping userName
      = (typingUsers, false) := by
  simp [handleTypingEvent]

/-- Helper for C9: a batch containing a failing upload makes the whole loop
fail. -/
theorem runUploads_error_of_mem (results : List (Except String FileAttachment))
    (e : String) (h : Except.error e ∈ results) :
    ∃ f, runUploads results = Except.error f := by
  induction results with
  | nil => cases h
  | cons r rest ih =>
    cases r with
    | error e0 => exact ⟨e0, rfl⟩
    | ok a =>
      have hmem : Except.error e ∈ rest := by
        rcases List.mem_cons.mp h with h1 | h1
        · cases h1
        · exact h1
      obtain ⟨f, hf⟩ := ih hmem
      refine ⟨f, ?_⟩
      simp [runUploads, hf]

/-- Claim C9: for every upload batch in which some upload fails, the
attachment stage is left unchanged by the failing call (in particular the
failed file does not appear in it) and the uploading flag is cleared, so the
composer remains usable afterwards; no retry is attempted — the batch simply
ends with the stage as it was. -/
theorem C9_upload_failure_leaves_stage (stage : List FileAttachment)
    (results : List (Except String FileAttachment)) (e : String)
    (h : Except.error e ∈ results) :
    handleFileUpload stage results = (stage, false) := by
  obtain ⟨f, hf⟩ := runUploads_error_of_mem results e h
  simp [handleFileUpload, hf]

/-- Witness for C9: a singleton batch whose only upload fails leaves the
empty stage unchanged and the uploading flag cleared. -/
theorem C9_upload_failure_leaves_stage_witness :
    handleFileUpload [] [Except.error "network"] = ([], false) :=
  C9_upload_failure_leaves_stage [] [Except.error "network"] "network"
    (List.Mem.head _)

/-- Claim C4: when the user and channel are present, the composer content is
non-blank and the single publish call fails, the controller appends exactly
one own-authored message carrying that content and the current wall-clock
timestamp, clears the text input and the attachment stage, and publishes
only once (no retry). -/
theorem C4_send_fallback (u : SessionUser) (now : Nat) (messages : List Message)
    (text : String) (stage : List FileAttachment)
    (hid : u.id ≠ "") (htext : jsTrim text ≠ "") :
    handleSendMessage (some u) true false now messages text stage
      = { messages := messages ++ [fallbackMessage u now text stage],
          text := "", stage := [], publishCount := 1 } ∧
    (fallbackMessage u now text stage).content = text ∧
    (fallbackMessage u now text stage).isOwn = true ∧
    (fallbackMessage u now text stage).timestamp = now := by
  refine ⟨?_, rfl, rfl, rfl⟩
  simp [handleSendMessage, htext, hid]

/-- Witness for C4: a failed publish of `"hello"` with an empty stage yields
the transcript extended by the own-authored fallback message and a cleared
composer. -/
theorem C4_send_fallback_witness :
    handleSendMessage (some demoUser) true false 1700000000000 [] "hello" []
      = { messages := [fallbackMessage demoUser 1700000000000 "hello" []],
          text := "", stage := [], publishCount := 1 } ∧
    (fallbackMessage demoUser 1700000000000 "hello" []).content = "hello" ∧
    (fallbackMessage demoUser 1700000000000 "hello" []).isOwn = true ∧
    (fallbackMessage demoUser 1700000000000 "hello" []).timestamp = 1700000000000 :=
  C4_send_fallback demoUser 1700000000000 [] "hello" [] (by decide) (by decide)

/-- Claim C5 as stated is false: the separator compares `formatDate` labels,
which omit the year, so January 5 2024 followed by January 5 2025 — two
different calendar dates — produces no separator before the second message,
while the spec's calendar-date rule demands one. -/
theorem C5_date_grouping_counterexample :
    (⟨2024, 1, 5⟩ : CalDate) ≠ ⟨2025, 1, 5⟩ ∧
    showDateFlags ⟨2026, 3, 1⟩ [⟨2024, 1, 5⟩, ⟨2025, 1, 5⟩] = [true, false] ∧
    specDateFlags [⟨2024, 1, 5⟩, ⟨2025, 1, 5⟩] = [true, true] := by
  decide

/-- Claim C5 amended: the first message always gets a separator; a message
whose calendar date equals the previous one never does; and a message whose
`formatDate` label differs from the previous one does — so for timestamps
on days D1, D1, D2 whose labels differ, the flags are exactly true, false,
true.  (Because the label omits the year, equal month-and-day dates of
different years yield no separator.) -/
theorem C5_date_grouping_amended (today d1 d2 d3 : CalDate)
    (h12 : d1 = d2) (h23 : formatDate today d2 ≠ formatDate today d3) :
    showDateFlags today [d1, d2, d3] = [true, false, true] := by
  subst h12
  have e1 : decide (formatDate today d1 ≠ formatDate today d1) = false := by simp
  have e2 : decide (formatDate today d3 ≠ formatDate today d1) = true := by
    simp only [decide_eq_true_eq]
    exact Ne.symm h23
  simp only [showDateFlags, showDateGo, e1, e2]

/-- Witness for C5's amended claim on concrete dates January 5 and
January 6, 2026, viewed from March 1, 2026. -/
theorem C5_date_grouping_amended_witness :
    showDateFlags ⟨2026, 3, 1⟩ [⟨2026, 1, 5⟩, ⟨2026, 1, 5⟩, ⟨2026, 1, 6⟩]
      = [true, false, true] :=
  C5_date_grouping_amended ⟨2026, 3, 1⟩ ⟨2026, 1, 5⟩ ⟨2026, 1, 5⟩ ⟨2026, 1, 6⟩
    rfl (by decide)

/-- Claim C7 as stated is false: `typing:start` is only published when the
trimmed composer value is non-empty, so a burst consisting of a single
whitespace keystroke publishes no `typing:start` at all — yet the stop timer
still fires, publishing `typing:stop`. -/
theorem C7_typing_debounce_counterexample : ¬ typingDebounceClaim := by
  intro h
  exact absurd (h 0 " " [] rfl) (by decide)

/-- Helper for C7: while the stop timer is armed, a burst of keystrokes
publishes nothing further and leaves exactly the final `typing:stop`, fired
1000 ms after the last keystroke. -/
theorem runTyping_armed_burst (ks : List (Nat × String)) (t0 : Nat)
    (hb : isBurstFrom t0 ks = true) :
    runTyping (some (t0 + 1000)) ks = [(lastKeyTime t0 ks + 1000, Sig.stop)] := by
  induction ks generalizing t0 with
  | nil => rfl
  | cons k rest ih =>
    obtain ⟨t, v⟩ := k
    simp only [isBurstFrom, Bool.and_eq_true, decide_eq_true_eq] at hb
    obtain ⟨⟨h1, h2⟩, h3⟩ := hb
    simp only [runTyping, lastKeyTime]
    rw [if_neg (by omega)]
    exact ih t h3

/-- Claim C7 amended: for every burst of one or more keystrokes separated by
less than 1000 ms, entered with no stop timer armed and whose first
keystroke's trimmed input value is non-empty, exactly one `typing:start` is
published at the first keystroke and exactly one `typing:stop` 1000 ms after
the last keystroke. -/
theorem C7_typing_debounce_amended (t1 : Nat) (v1 : String)
    (rest : List (Nat × String)) (hv : jsTrim v1 ≠ "")
    (hb : isBurstFrom t1 rest = true) :
    runTyping none ((t1, v1) :: rest)
      = [(t1, Sig.start), (lastKeyTime t1 rest + 1000, Sig.stop)] := by
  simp only [runTyping]
  rw [if_pos hv, runTyping_armed_burst rest t1 hb]
  rfl

/-- Witness for C7's amended claim: three keystrokes at 0, 500 and 999 ms
with non-blank values publish one `typing:start` at 0 and one `typing:stop`
at 1999 ms. -/
theorem C7_typing_debounce_amended_witness :
    runTyping none [(0, "h"), (500, "he"), (999, "hey")]
      = [(0, Sig.start), (1999, Sig.stop)] :=
  C7_typing_debounce_amended 0 "h" [(500, "he"), (999, "hey")]
    (by decide) (by decide)

end ChatSpec
